import Mathlib

set_option maxHeartbeats 1000000
set_option linter.unusedVariables false

/-!
Shallow embedding of `src/main.ts` of `publish-immutable-action`.

The orchestrator (`run`, `parseSemverTagFromRef`, `publishImmutableActionVersion`,
`publishAttestation`, `generateAttestation`, `removePrefix`) is translated from
the source.  The modules it imports (`./config`, `./fs-helper`, `./oci-container`,
`./ghcr-client`, `semver`, `@actions/attest`, `crypto`) are not under `src/`;
their behaviour during one run is captured by an `Env` record of results and
pure functions, and the `oci-container` manifest builders are modelled from the
spec (section 4.2) where noted.  A thrown JavaScript value is `Thrown`; strings
stand for byte buffers; JS string/`Map` primitives are modelled at character /
association-list level, matching JS semantics.
-/

/-- A thrown JavaScript value: `error` is an `Error` instance carrying its
message (so `instanceof Error` holds exactly for `Thrown.error _`), and
`nonError` is any other thrown value. -/
inductive Thrown where
  | error (message : String)
  | nonError
  deriving DecidableEq, Repr

/-- Modelled from the spec: a staged archive descriptor `{path, sha256, sizeBytes}`
supplied by the `fs-helper` module (not under `src/`), section 6. -/
structure FileMetadata where
  path : String
  sha256 : String
  size : Nat
  deriving DecidableEq, Repr

/-- Modelled from the spec: the tar/zip pair returned by `fsHelper.createArchives`. -/
structure Archives where
  tarFile : FileMetadata
  zipFile : FileMetadata
  deriving DecidableEq, Repr

/-- Modelled from the spec: an OCI content descriptor (section 3, DATA MODEL);
the `oci-container` module is not under `src/`. -/
structure Descriptor where
  mediaType : String
  digest : String
  size : Nat
  annotations : List (String × String)
  deriving DecidableEq, Repr

/-- Modelled from the spec: an OCI Image Manifest (section 3). -/
structure OCIImageManifest where
  schemaVersion : Nat
  mediaType : String
  artifactType : Option String
  config : Descriptor
  layers : List Descriptor
  annotations : List (String × String)
  deriving DecidableEq, Repr

/-- Modelled from the spec: an OCI Index Manifest (the referrer index, section 3). -/
structure OCIIndexManifest where
  schemaVersion : Nat
  mediaType : String
  manifests : List Descriptor
  annotations : List (String × String)
  deriving DecidableEq, Repr

/-- Modelled from the spec: fixed media-type constant for OCI image manifests (section 6). -/
def ociImageManifestMediaType : String := "application/vnd.oci.image.manifest.v1+json"

/-- Modelled from the spec: fixed media-type constant for OCI index manifests (section 6). -/
def ociIndexManifestMediaType : String := "application/vnd.oci.image.index.v1+json"

/-- Modelled from the spec: fixed media-type constant for the empty JSON config blob. -/
def emptyConfigMediaType : String := "application/vnd.oci.empty.v1+json"

/-- Modelled from the spec: fixed media-type constant for a generic archive layer. -/
def actionsLayerMediaType : String := "application/vnd.github.actions.package.layer.v1+archive"

/-- Modelled from the spec: fixed media-type constant for the signed attestation bundle layer. -/
def attestationBundleMediaType : String := "application/vnd.dev.sigstore.bundle.v0.3+json"

/-- Modelled from the spec: `ociContainer.emptyConfigSha`, the fixed, universally
known digest of the empty JSON object blob; it is referenced, never regenerated
by hashing (section 3 invariants). -/
def emptyConfigSha : String :=
  "sha256:44136fa355b3678a1146ad16f7e8649e94fb4fc21fe77e8310c060f61caaff8a"

/-- Modelled from the spec: the fixed empty-object config descriptor. -/
def emptyConfigDescriptor : Descriptor :=
  { mediaType := emptyConfigMediaType, digest := emptyConfigSha, size := 2, annotations := [] }

/-- Modelled from the spec: the layer descriptor for a staged archive file. -/
def layerDescriptor (f : FileMetadata) : Descriptor :=
  { mediaType := actionsLayerMediaType, digest := f.sha256, size := f.size, annotations := [] }

/-- Modelled from the spec: `ociContainer.createActionPackageManifest`
(section 4.2); layers are `[tar, zip]`, config is the fixed empty-object
descriptor, annotations carry repository identity, commit SHA, semantic version
and creation timestamp.  Fails only if an input descriptor has zero size or an
empty digest. -/
def createActionPackageManifest (tarFile zipFile : FileMetadata)
    (nameWithOwner repositoryId ownerId commitSha versionTag createdAt : String) :
    Except Thrown OCIImageManifest :=
  if tarFile.size = 0 ∨ zipFile.size = 0 ∨ tarFile.sha256 = "" ∨ zipFile.sha256 = "" then
    Except.error (Thrown.error "Input archive descriptor has zero size or an empty digest")
  else
    Except.ok
      { schemaVersion := 2
        mediaType := ociImageManifestMediaType
        artifactType := none
        config := emptyConfigDescriptor
        layers := [layerDescriptor tarFile, layerDescriptor zipFile]
        annotations :=
          [("org.opencontainers.image.source", nameWithOwner),
           ("org.opencontainers.image.revision", commitSha),
           ("org.opencontainers.image.version", versionTag),
           ("org.opencontainers.image.created", createdAt),
           ("com.github.package.repository.id", repositoryId),
           ("com.github.package.repository.owner.id", ownerId)] }

/-- Modelled from the spec: `ociContainer.createSigstoreAttestationManifest`
(section 4.2); single bundle layer, empty-object config, annotations recording
the subject manifest's digest and size. -/
def createSigstoreAttestationManifest (bundleSize : Nat) (bundleDigest : String)
    (subjectSize : Nat) (subjectDigest : String) (createdAt : String) : OCIImageManifest :=
  { schemaVersion := 2
    mediaType := ociImageManifestMediaType
    artifactType := some attestationBundleMediaType
    config := emptyConfigDescriptor
    layers := [{ mediaType := attestationBundleMediaType, digest := bundleDigest,
                 size := bundleSize, annotations := [] }]
    annotations :=
      [("com.github.package.subject.digest", subjectDigest),
       ("com.github.package.subject.size", toString subjectSize),
       ("org.opencontainers.image.created", createdAt)] }

/-- Modelled from the spec: `ociContainer.createReferrerTagManifest`
(section 4.2); a single-entry index pointing at the attestation manifest,
annotated as provenance. -/
def createReferrerTagManifest (attDigest : String) (attSize : Nat)
    (createdAt : String) : OCIIndexManifest :=
  { schemaVersion := 2
    mediaType := ociIndexManifestMediaType
    manifests := [{ mediaType := ociImageManifestMediaType, digest := attDigest,
                    size := attSize,
                    annotations := [("com.github.artifact.type", "provenance")] }]
    annotations := [("org.opencontainers.image.created", createdAt)] }

/-- Modelled from the spec: the result of the external `semver` library's parse;
only the raw tag string is consumed by the orchestrator. -/
structure SemVer where
  raw : String
  deriving DecidableEq, Repr

/-- Translated from `config.PublishActionOptions` as consumed by `src/main.ts`. -/
structure PublishActionOptions where
  ref : String
  sha : String
  nameWithOwner : String
  repositoryId : String
  repositoryOwnerId : String
  token : String
  containerRegistryUrl : String
  isEnterprise : Bool
  workspaceDir : String
  runnerTempDir : String
  deriving DecidableEq, Repr

/-- JS `str.startsWith(p)`: character-level prefix test. -/
def jsStartsWith (s p : String) : Bool := p.data.isPrefixOf s.data

/-- JS `str.slice(n)` / anchored prefix removal: drop the first `n` characters. -/
def jsDrop (s : String) (n : Nat) : String := String.mk (s.data.drop n)

/-- Replace the first occurrence of the character `c` by `r` (the behaviour of
JS `str.replace(c, r)` with a single-character string pattern). -/
def replaceFirstChar (cs : List Char) (c r : Char) : List Char :=
  match cs with
  | [] => []
  | x :: rest => if x = c then r :: rest else x :: replaceFirstChar rest c r

/-- JS `str.replace(c, r)` for one-character patterns: only the first occurrence
is replaced. -/
def jsReplaceCharFirst (s : String) (c r : Char) : String :=
  String.mk (replaceFirstChar s.data c r)

/-- Translated from `removePrefix` in `src/main.ts` (lines 250-255). -/
def removePrefix (str pfxStr : String) : String :=
  if jsStartsWith str pfxStr then jsDrop str pfxStr.length else str

/-- JS `Map.set` on a string-keyed map kept as an insertion-ordered association
list: an existing key is updated in place, a new key is appended. -/
def jsMapSet (m : List (String × String)) (k v : String) : List (String × String) :=
  match m with
  | [] => [(k, v)]
  | (k0, v0) :: rest => if k0 = k then (k, v) :: rest else (k0, v0) :: jsMapSet rest k v

/-- An external call attempted during the run, recorded with its arguments. -/
inductive Event where
  | checkout (ref sha workspaceDir : String)
  | stageFiles
  | createArchives
  | attestCall (subjectName subjectDigest : String)
  | uploadImageManifest (manifest : OCIImageManifest)
      (files : List (String × String)) (tag : Option String)
  | uploadIndexManifest (manifest : OCIIndexManifest) (tag : String)
  deriving DecidableEq, Repr

/-- Behaviour of the external collaborators during one run: each fallible call's
outcome, and the pure functions the run consumes (the digest engine, SHA-256
hex, semver parsing, file reads).  Each registry upload endpoint is invoked at
most once per run, so a plain result per endpoint captures every behaviour. -/
structure Env where
  resolveOptions : Except Thrown PublishActionOptions
  parseSemver : String → Option SemVer
  ensureCheckout : Except Thrown Unit
  stageResult : Except Thrown Unit
  archivesResult : Except Thrown Archives
  readFileContents : String → String
  attestResult : Except Thrown String
  sha256Hex : String → String
  digestImage : OCIImageManifest → String
  sizeImage : OCIImageManifest → Nat
  digestIndex : OCIIndexManifest → String
  attestationUploadResult : Except Thrown String
  indexUploadResult : Except Thrown String
  subjectUploadResult : Except Thrown String
  now1 : String
  now2 : String

/-- Translated from `parseSemverTagFromRef` in `src/main.ts` (lines 122-138):
the ref must start with `refs/tags/`; the tag (after stripping a single leading
`v`, the regex `/^v/`) must parse as a semantic version. -/
def parseSemverTagFromRef (parseSemver : String → Option SemVer)
    (opts : PublishActionOptions) : Except Thrown SemVer :=
  let ref := opts.ref
  if ¬ jsStartsWith ref "refs/tags/" then
    Except.error (Thrown.error ("The ref " ++ ref ++ " is not a valid tag reference."))
  else
    let rawTag := jsDrop ref "refs/tags/".length
    match parseSemver (if jsStartsWith rawTag "v" then jsDrop rawTag 1 else rawTag) with
    | none =>
        Except.error (Thrown.error (rawTag ++
          " is not a valid semantic version tag, and so cannot be uploaded to the action package."))
    | some sv => Except.ok sv

/-- Translated from `generateAttestation` in `src/main.ts` (lines 220-248):
request provenance for `nameWithOwner@tag` and the subject digest with the
`sha256:` prefix removed; the bundle is the JSON-serialized attestation bundle
(supplied by the external `@actions/attest` collaborator via `env.attestResult`)
and its digest is `sha256:` + SHA-256 hex of those exact bytes (`env.sha256Hex`
models the `crypto` module).  Returns the result paired with the events
attempted. -/
def generateAttestation (env : Env) (manifestDigest semverTag : String)
    (options : PublishActionOptions) : Except Thrown (String × String) × List Event :=
  let subjectName := options.nameWithOwner ++ "@" ++ semverTag
  let subjectDigest := removePrefix manifestDigest "sha256:"
  let ev := Event.attestCall subjectName subjectDigest
  match env.attestResult with
  | Except.error t => (Except.error t, [ev])
  | Except.ok bundleArtifact =>
      (Except.ok (bundleArtifact, "sha256:" ++ env.sha256Hex bundleArtifact), [ev])

/-- Translated from `publishAttestation` in `src/main.ts` (lines 168-218):
upload the attestation manifest with the `{}` config blob and the bundle blob,
then upload the referrer index tagged with the subject digest's colon replaced
by a hyphen.  Returns the registry-returned digests paired with the upload
events attempted. -/
def publishAttestation (env : Env) (options : PublishActionOptions)
    (bundle bundleDigest : String)
    (subjectManifest attestationManifest : OCIImageManifest)
    (referrerIndexManifest : OCIIndexManifest) :
    Except Thrown (String × String) × List Event :=
  let _attestationManifestDigest := env.digestImage attestationManifest
  let subjectManifestDigest := env.digestImage subjectManifest
  let _referrerIndexManifestDigest := env.digestIndex referrerIndexManifest
  let files := jsMapSet (jsMapSet [] emptyConfigSha "\x7b\x7d") bundleDigest bundle
  let ev1 := Event.uploadImageManifest attestationManifest files none
  match env.attestationUploadResult with
  | Except.error t => (Except.error t, [ev1])
  | Except.ok attestationSHA =>
      let referrerTag := jsReplaceCharFirst subjectManifestDigest ':' '-'
      let ev2 := Event.uploadIndexManifest referrerIndexManifest referrerTag
      match env.indexUploadResult with
      | Except.error t => (Except.error t, [ev1, ev2])
      | Except.ok referrerIndexSHA =>
          (Except.ok (attestationSHA, referrerIndexSHA), [ev1, ev2])

/-- Translated from `publishImmutableActionVersion` in `src/main.ts`
(lines 140-166): collect the zip, tar and empty-config blobs keyed by their
digests and upload the subject manifest tagged with the semver string. -/
def publishImmutableActionVersion (env : Env) (options : PublishActionOptions)
    (semverTag : String) (zipFile tarFile : FileMetadata)
    (manifest : OCIImageManifest) : Except Thrown String × List Event :=
  let files := jsMapSet (jsMapSet (jsMapSet []
      zipFile.sha256 (env.readFileContents zipFile.path))
      tarFile.sha256 (env.readFileContents tarFile.path))
      emptyConfigSha "\x7b\x7d"
  (env.subjectUploadResult, [Event.uploadImageManifest manifest files (some semverTag)])

/-- The observable state accumulated by a run: the external calls attempted and
the `core.setOutput` pairs emitted, both in order. -/
structure St where
  events : List Event
  outputs : List (String × String)
  deriving DecidableEq, Repr

/-- Translated from the tail of `run` in `src/main.ts` (lines 98-112): upload
the subject manifest, compare the registry-returned digest with the locally
computed one — a mismatch throws an `Error` naming both digests — and emit the
`package-manifest-sha` output only on equality. -/
def subjectPhase (env : Env) (options : PublishActionOptions) (semverTag : SemVer)
    (archives : Archives) (manifest : OCIImageManifest) (manifestDigest : String)
    (evs : List Event) (outs : List (String × String)) : Except Thrown Unit × St :=
  match publishImmutableActionVersion env options semverTag.raw archives.zipFile
      archives.tarFile manifest with
  | (Except.error t, evU) => (Except.error t, ⟨evs ++ evU, outs⟩)
  | (Except.ok publishedDigest, evU) =>
      if manifestDigest ≠ publishedDigest then
        (Except.error (Thrown.error ("Unexpected digest returned for manifest. Expected "
            ++ manifestDigest ++ ", got " ++ publishedDigest)), ⟨evs ++ evU, outs⟩)
      else
        (Except.ok (), ⟨evs ++ evU, outs ++ [("package-manifest-sha", publishedDigest)]⟩)

/-- Translated from the body of the `try` block of `run` in `src/main.ts`
(lines 15-112): resolve options, parse the semver tag, check out, stage,
archive, build the subject manifest and digest it, run the attestation branch
unless `isEnterprise`, then publish the subject manifest and verify its digest.
Returns the `try` block's outcome together with the accumulated state. -/
def runExec (env : Env) : Except Thrown Unit × St :=
  match env.resolveOptions with
  | Except.error t => (Except.error t, ⟨[], []⟩)
  | Except.ok options =>
    match parseSemverTagFromRef env.parseSemver options with
    | Except.error t => (Except.error t, ⟨[], []⟩)
    | Except.ok semverTag =>
      let ev0 := Event.checkout options.ref options.sha options.workspaceDir
      match env.ensureCheckout with
      | Except.error t => (Except.error t, ⟨[ev0], []⟩)
      | Except.ok _ =>
        match env.stageResult with
        | Except.error t => (Except.error t, ⟨[ev0, Event.stageFiles], []⟩)
        | Except.ok _ =>
          let evs1 := [ev0, Event.stageFiles, Event.createArchives]
          match env.archivesResult with
          | Except.error t => (Except.error t, ⟨evs1, []⟩)
          | Except.ok archives =>
            match createActionPackageManifest archives.tarFile archives.zipFile
                options.nameWithOwner options.repositoryId options.repositoryOwnerId
                options.sha semverTag.raw env.now1 with
            | Except.error t => (Except.error t, ⟨evs1, []⟩)
            | Except.ok manifest =>
              let manifestDigest := env.digestImage manifest
              if options.isEnterprise then
                subjectPhase env options semverTag archives manifest manifestDigest evs1 []
              else
                match generateAttestation env manifestDigest semverTag.raw options with
                | (Except.error t, evA) => (Except.error t, ⟨evs1 ++ evA, []⟩)
                | (Except.ok (bundle, bundleDigest), evA) =>
                  let attestationManifest := createSigstoreAttestationManifest
                      bundle.length bundleDigest (env.sizeImage manifest) manifestDigest env.now2
                  let referrerIndexManifest := createReferrerTagManifest
                      (env.digestImage attestationManifest) (env.sizeImage attestationManifest)
                      env.now2
                  match publishAttestation env options bundle bundleDigest manifest
                      attestationManifest referrerIndexManifest with
                  | (Except.error t, evP) => (Except.error t, ⟨evs1 ++ evA ++ evP, []⟩)
                  | (Except.ok (attestationSHA, referrerIndexSHA), evP) =>
                    let outs := [("attestation-manifest-sha", attestationSHA),
                                 ("referrer-index-manifest-sha", referrerIndexSHA)]
                    subjectPhase env options semverTag archives manifest manifestDigest
                      (evs1 ++ evA ++ evP) outs

/-- The outcome of a whole run: the state plus `core.setFailed`'s message. -/
structure RunResult where
  events : List Event
  outputs : List (String × String)
  failed : Option String
  deriving DecidableEq, Repr

/-- Translated from `run` in `src/main.ts` (lines 14-117): the `try` block's
result passes through the `catch`, which calls `core.setFailed(error.message)`
only when the thrown value is an `Error` instance; a non-`Error` throw is
swallowed and the promise resolves normally. -/
def run (env : Env) : RunResult :=
  match runExec env with
  | (Except.ok _, st) => ⟨st.events, st.outputs, none⟩
  | (Except.error (Thrown.error msg), st) => ⟨st.events, st.outputs, some msg⟩
  | (Except.error Thrown.nonError, st) => ⟨st.events, st.outputs, none⟩

/-! ### String-level helper lemmas -/

theorem jsStartsWith_append (p s : String) : jsStartsWith (p ++ s) p = true := by
  unfold jsStartsWith
  rw [String.data_append, List.isPrefixOf_iff_prefix]
  exact List.prefix_append p.data s.data

theorem jsDrop_append (p s : String) : jsDrop (p ++ s) p.length = s := by
  unfold jsDrop
  rw [String.data_append]
  show String.mk ((p.data ++ s.data).drop p.data.length) = s
  rw [List.drop_left]

theorem removePrefix_append (p s : String) : removePrefix (p ++ s) p = s := by
  unfold removePrefix
  rw [jsStartsWith_append, if_pos rfl, jsDrop_append]

/-- A hexadecimal character as used in a lowercase hex digest. -/
def isHexChar (c : Char) : Bool := c.isDigit || ('a' ≤ c && c ≤ 'f')

theorem referrerTag_eq (hex : String) :
    jsReplaceCharFirst ("sha256:" ++ hex) ':' '-' = "sha256-" ++ hex := by
  unfold jsReplaceCharFirst
  rw [String.data_append]
  show String.mk (replaceFirstChar ("sha256:".data ++ hex.data) ':' '-') = "sha256-" ++ hex
  have h : replaceFirstChar ("sha256:".data ++ hex.data) ':' '-'
      = "sha256-".data ++ hex.data := rfl
  rw [h, ← String.data_append]

theorem no_colon_in_tag (hex : String) (hhex : ∀ c ∈ hex.data, isHexChar c = true) :
    ':' ∉ ("sha256-" ++ hex).data := by
  rw [String.data_append]
  intro hmem
  rcases List.mem_append.mp hmem with h | h
  · revert h; decide
  · exact absurd (hhex ':' h) (by decide)

/-! ### Concrete fixtures used by witnesses and counterexamples -/

/-- A concrete options record for a non-enterprise registry. -/
def opts0 : PublishActionOptions :=
  { ref := "refs/tags/v1.2.3", sha := "c0ffee", nameWithOwner := "octo/toolkit",
    repositoryId := "123", repositoryOwnerId := "456", token := "t",
    containerRegistryUrl := "ghcr.io", isEnterprise := false,
    workspaceDir := "/w", runnerTempDir := "/tmp" }

/-- A concrete tar archive descriptor. -/
def tar0 : FileMetadata := { path := "/a/archive.tar.gz", sha256 := "sha256:aaa", size := 100 }

/-- A concrete zip archive descriptor. -/
def zip0 : FileMetadata := { path := "/a/archive.zip", sha256 := "sha256:bbb", size := 200 }

/-- The concrete archive pair. -/
def archives0 : Archives := { tarFile := tar0, zipFile := zip0 }

/-- A concrete digest engine: the package manifest (no artifact type) digests to
`sha256:abc`, the attestation manifest to `sha256:de0`. -/
def digest0 : OCIImageManifest → String :=
  fun m => if m.artifactType = none then "sha256:abc" else "sha256:de0"

/-- A concrete environment in which every external collaborator succeeds and
the registry echoes back exactly the locally computed digests. -/
def envHappy : Env :=
  { resolveOptions := Except.ok opts0
    parseSemver := fun s => some { raw := s }
    ensureCheckout := Except.ok ()
    stageResult := Except.ok ()
    archivesResult := Except.ok archives0
    readFileContents := fun p => "contents:" ++ p
    attestResult := Except.ok "BUNDLE"
    sha256Hex := fun _ => "bd0"
    digestImage := digest0
    sizeImage := fun _ => 10
    digestIndex := fun _ => "sha256:1dc"
    attestationUploadResult := Except.ok "sha256:de0"
    indexUploadResult := Except.ok "sha256:1dc"
    subjectUploadResult := Except.ok "sha256:abc"
    now1 := "T1", now2 := "T2" }

/-- The subject package manifest that `envHappy` runs build. -/
def manifest0 : OCIImageManifest :=
  { schemaVersion := 2
    mediaType := ociImageManifestMediaType
    artifactType := none
    config := emptyConfigDescriptor
    layers := [layerDescriptor tar0, layerDescriptor zip0]
    annotations :=
      [("org.opencontainers.image.source", "octo/toolkit"),
       ("org.opencontainers.image.revision", "c0ffee"),
       ("org.opencontainers.image.version", "1.2.3"),
       ("org.opencontainers.image.created", "T1"),
       ("com.github.package.repository.id", "123"),
       ("com.github.package.repository.owner.id", "456")] }

/-- The attestation manifest that `envHappy` runs build. -/
def attManifest0 : OCIImageManifest :=
  createSigstoreAttestationManifest "BUNDLE".length "sha256:bd0" 10 "sha256:abc" "T2"

/-- The referrer index that `envHappy` runs build. -/
def idxManifest0 : OCIIndexManifest :=
  createReferrerTagManifest "sha256:de0" 10 "T2"

/-! ### C3: referrer tag derivation -/

/-- C3: for every subject manifest digest of the form `sha256:<hex>`, the tag
used when pushing the referrer index equals `sha256-<hex>` with no colon
remaining; the tag is derived inside `publishAttestation` from the subject
manifest's digest, never supplied by the caller. -/
theorem referrer_tag_derivation (env : Env) (options : PublishActionOptions)
    (bundle bundleDigest : String)
    (subjectManifest attestationManifest : OCIImageManifest)
    (referrerIndexManifest : OCIIndexManifest) (hex : String)
    (hhex : ∀ c ∈ hex.data, isHexChar c = true)
    (hdig : env.digestImage subjectManifest = "sha256:" ++ hex)
    (a : String) (ha : env.attestationUploadResult = Except.ok a) :
    (publishAttestation env options bundle bundleDigest subjectManifest
        attestationManifest referrerIndexManifest).2 =
      [Event.uploadImageManifest attestationManifest
          (jsMapSet (jsMapSet [] emptyConfigSha "\x7b\x7d") bundleDigest bundle) none,
       Event.uploadIndexManifest referrerIndexManifest ("sha256-" ++ hex)]
    ∧ ':' ∉ ("sha256-" ++ hex).data := by
  refine ⟨?_, no_colon_in_tag hex hhex⟩
  simp only [publishAttestation, hdig, ha, referrerTag_eq]
  cases hi : env.indexUploadResult <;> simp

/-- C3 witness: the derivation at a concrete digest `sha256:abc`. -/
theorem referrer_tag_derivation_witness :
    (publishAttestation envHappy opts0 "BUNDLE" "sha256:bd0" manifest0
        attManifest0 idxManifest0).2 =
      [Event.uploadImageManifest attManifest0
          (jsMapSet (jsMapSet [] emptyConfigSha "\x7b\x7d") "sha256:bd0" "BUNDLE") none,
       Event.uploadIndexManifest idxManifest0 ("sha256-" ++ "abc")]
    ∧ ':' ∉ ("sha256-" ++ "abc").data :=
  referrer_tag_derivation envHappy opts0 "BUNDLE" "sha256:bd0" manifest0
    attManifest0 idxManifest0 "abc" (by decide) rfl "sha256:de0" rfl

/-! ### C1: subject manifest digest verification -/

/-- C1: after the subject manifest upload, the run compares the registry-returned
digest against the locally computed subject manifest digest; if they differ, the
run fails with an error naming both digests and the `package-manifest-sha`
output is not emitted; the output is emitted (equal to the verified digest)
only when they are equal. -/
theorem subject_digest_verification (env : Env) (options : PublishActionOptions)
    (sv : SemVer) (archives : Archives) (manifest : OCIImageManifest)
    (bundle aSHA iSHA publishedDigest : String)
    (h1 : env.resolveOptions = Except.ok options)
    (h2 : parseSemverTagFromRef env.parseSemver options = Except.ok sv)
    (h3 : env.ensureCheckout = Except.ok ())
    (h4 : env.stageResult = Except.ok ())
    (h5 : env.archivesResult = Except.ok archives)
    (h6 : createActionPackageManifest archives.tarFile archives.zipFile
        options.nameWithOwner options.repositoryId options.repositoryOwnerId
        options.sha sv.raw env.now1 = Except.ok manifest)
    (hA : env.attestResult = Except.ok bundle)
    (hB : env.attestationUploadResult = Except.ok aSHA)
    (hC : env.indexUploadResult = Except.ok iSHA)
    (hU : env.subjectUploadResult = Except.ok publishedDigest) :
    (env.digestImage manifest ≠ publishedDigest →
      (run env).failed = some ("Unexpected digest returned for manifest. Expected "
          ++ env.digestImage manifest ++ ", got " ++ publishedDigest)
      ∧ ∀ v, ("package-manifest-sha", v) ∉ (run env).outputs)
    ∧ (env.digestImage manifest = publishedDigest →
      (run env).failed = none
      ∧ ("package-manifest-sha", publishedDigest) ∈ (run env).outputs) := by
  unfold run runExec subjectPhase publishImmutableActionVersion generateAttestation
    publishAttestation
  simp only [h1, h2, h3, h4, h5, h6, hA, hB, hC, hU]
  by_cases hd : env.digestImage manifest = publishedDigest
  · cases hE : options.isEnterprise <;> simp [hd]
  · cases hE : options.isEnterprise <;> simp [hd]

/-- C1 witness: in `envHappy` the registry echoes the computed digest and the
verified digest is emitted. -/
theorem subject_digest_verification_witness :
    (run envHappy).failed = none
    ∧ ("package-manifest-sha", "sha256:abc") ∈ (run envHappy).outputs :=
  (subject_digest_verification envHappy opts0 { raw := "1.2.3" } archives0 manifest0
    "BUNDLE" "sha256:de0" "sha256:1dc" "sha256:abc"
    rfl rfl rfl rfl rfl rfl rfl rfl rfl rfl).2 rfl

/-! ### C2: registry-returned attestation digests are NOT verified -/

/-- An environment identical to `envHappy` except that the registry returns
digests for the attestation manifest and referrer index uploads that differ
from the locally computed ones (`sha256:de0` and `sha256:1dc`). -/
def envBadAtt : Env :=
  { envHappy with
    attestationUploadResult := Except.ok "sha256:evil"
    indexUploadResult := Except.ok "sha256:evil2" }

/-- C2 counterexample: the registry returns `sha256:evil`/`sha256:evil2` for the
attestation manifest and referrer index, which differ from the locally computed
digests `sha256:de0`/`sha256:1dc` of the manifests the run actually uploaded,
yet the run does not fail and emits both success outputs with the unverified
registry values. -/
theorem attestation_digest_unverified_cex :
    envBadAtt.attestationUploadResult = Except.ok "sha256:evil"
    ∧ envBadAtt.digestImage attManifest0 = "sha256:de0"
    ∧ envBadAtt.indexUploadResult = Except.ok "sha256:evil2"
    ∧ envBadAtt.digestIndex idxManifest0 = "sha256:1dc"
    ∧ Event.uploadImageManifest attManifest0
        (jsMapSet (jsMapSet [] emptyConfigSha "\x7b\x7d") "sha256:bd0" "BUNDLE") none
        ∈ (run envBadAtt).events
    ∧ Event.uploadIndexManifest idxManifest0 "sha256-abc" ∈ (run envBadAtt).events
    ∧ (run envBadAtt).failed = none
    ∧ (run envBadAtt).outputs =
        [("attestation-manifest-sha", "sha256:evil"),
         ("referrer-index-manifest-sha", "sha256:evil2"),
         ("package-manifest-sha", "sha256:abc")] := by
  refine ⟨rfl, rfl, rfl, rfl, by decide, by decide, rfl, rfl⟩

/-- C2 amended: the registry-returned digests for the attestation manifest and
referrer index uploads are not compared against the locally computed digests;
whatever strings the registry returns are emitted unchanged as the
`attestation-manifest-sha` and `referrer-index-manifest-sha` outputs, and the
run proceeds to the subject upload regardless (only the subject manifest digest
is verified). -/
theorem attestation_digest_unverified (env : Env) (options : PublishActionOptions)
    (sv : SemVer) (archives : Archives) (manifest : OCIImageManifest)
    (bundle aSHA iSHA publishedDigest : String)
    (h1 : env.resolveOptions = Except.ok options)
    (h2 : parseSemverTagFromRef env.parseSemver options = Except.ok sv)
    (h3 : env.ensureCheckout = Except.ok ())
    (h4 : env.stageResult = Except.ok ())
    (h5 : env.archivesResult = Except.ok archives)
    (h6 : createActionPackageManifest archives.tarFile archives.zipFile
        options.nameWithOwner options.repositoryId options.repositoryOwnerId
        options.sha sv.raw env.now1 = Except.ok manifest)
    (hEnt : options.isEnterprise = false)
    (hA : env.attestResult = Except.ok bundle)
    (hB : env.attestationUploadResult = Except.ok aSHA)
    (hC : env.indexUploadResult = Except.ok iSHA)
    (hU : env.subjectUploadResult = Except.ok publishedDigest)
    (hd : env.digestImage manifest = publishedDigest) :
    (run env).failed = none
    ∧ (run env).outputs =
        [("attestation-manifest-sha", aSHA),
         ("referrer-index-manifest-sha", iSHA),
         ("package-manifest-sha", publishedDigest)] := by
  unfold run runExec subjectPhase publishImmutableActionVersion generateAttestation
    publishAttestation
  simp [h1, h2, h3, h4, h5, h6, hEnt, hA, hB, hC, hU, hd]

/-- C2 amended witness: in `envBadAtt` the unverified registry values flow
straight into the outputs. -/
theorem attestation_digest_unverified_witness :
    (run envBadAtt).failed = none
    ∧ (run envBadAtt).outputs =
        [("attestation-manifest-sha", "sha256:evil"),
         ("referrer-index-manifest-sha", "sha256:evil2"),
         ("package-manifest-sha", "sha256:abc")] :=
  attestation_digest_unverified envBadAtt opts0 { raw := "1.2.3" } archives0 manifest0
    "BUNDLE" "sha256:evil" "sha256:evil2" "sha256:abc"
    rfl rfl rfl rfl rfl rfl rfl rfl rfl rfl rfl rfl

/-! ### C4: referrer index upload ordering -/

/-- Recognizes the attestation manifest upload attempt (image manifest pushed untagged). -/
def isAttUploadEvent : Event → Bool
  | Event.uploadImageManifest _ _ none => true
  | _ => false

/-- Recognizes a referrer index upload attempt. -/
def isIdxUploadEvent : Event → Bool
  | Event.uploadIndexManifest _ _ => true
  | _ => false

/-- Every referrer index upload in the list is preceded by an attestation
manifest upload (`seen` records whether one has already occurred). -/
def idxPrecededBy (seen : Bool) (evs : List Event) : Bool :=
  match evs with
  | [] => true
  | e :: rest =>
      if isIdxUploadEvent e then seen && idxPrecededBy seen rest
      else idxPrecededBy (seen || isAttUploadEvent e) rest

/-- Whether any referrer index upload was attempted. -/
def hasIdxUpload (evs : List Event) : Bool := evs.any isIdxUploadEvent

/-- Whether a registry call completed successfully. -/
def exceptIsOk : Except Thrown String → Bool
  | Except.ok _ => true
  | Except.error _ => false


theorem runExec_analysis (env : Env) :
    idxPrecededBy false (runExec env).2.events = true
    ∧ (hasIdxUpload (runExec env).2.events = true → exceptIsOk env.attestationUploadResult = true)
    ∧ (∀ v t, (runExec env).1 = Except.error t →
        ("package-manifest-sha", v) ∉ (runExec env).2.outputs) := by
  cases h1 : env.resolveOptions with
  | error t => simp [runExec, h1, idxPrecededBy, hasIdxUpload]
  | ok options =>
  cases h2 : parseSemverTagFromRef env.parseSemver options with
  | error t => simp [runExec, h1, h2, idxPrecededBy, hasIdxUpload]
  | ok sv =>
  cases h3 : env.ensureCheckout with
  | error t =>
      simp [runExec, h1, h2, h3, idxPrecededBy, hasIdxUpload, isIdxUploadEvent, isAttUploadEvent]
  | ok u3 =>
  cases h4 : env.stageResult with
  | error t =>
      simp [runExec, h1, h2, h3, h4, idxPrecededBy, hasIdxUpload, isIdxUploadEvent,
        isAttUploadEvent]
  | ok u4 =>
  cases h5 : env.archivesResult with
  | error t =>
      simp [runExec, h1, h2, h3, h4, h5, idxPrecededBy, hasIdxUpload, isIdxUploadEvent,
        isAttUploadEvent]
  | ok archives =>
  cases h6 : createActionPackageManifest archives.tarFile archives.zipFile
      options.nameWithOwner options.repositoryId options.repositoryOwnerId
      options.sha sv.raw env.now1 with
  | error t =>
      simp [runExec, h1, h2, h3, h4, h5, h6, idxPrecededBy, hasIdxUpload, isIdxUploadEvent,
        isAttUploadEvent]
  | ok manifest =>
  cases hE : options.isEnterprise with
  | true =>
      cases h7 : env.subjectUploadResult with
      | error t =>
          simp [runExec, subjectPhase, publishImmutableActionVersion, h1, h2, h3, h4, h5, h6,
            hE, h7, idxPrecededBy, hasIdxUpload, isIdxUploadEvent, isAttUploadEvent]
      | ok publishedDigest =>
          by_cases hd : env.digestImage manifest = publishedDigest <;>
            simp [runExec, subjectPhase, publishImmutableActionVersion, h1, h2, h3, h4, h5, h6,
              hE, h7, hd, idxPrecededBy, hasIdxUpload, isIdxUploadEvent, isAttUploadEvent]
  | false =>
  cases hA : env.attestResult with
  | error t =>
      simp [runExec, generateAttestation, h1, h2, h3, h4, h5, h6, hE, hA, idxPrecededBy,
        hasIdxUpload, isIdxUploadEvent, isAttUploadEvent]
  | ok bundle =>
  cases hB : env.attestationUploadResult with
  | error t =>
      simp [runExec, generateAttestation, publishAttestation, h1, h2, h3, h4, h5, h6, hE, hA,
        hB, idxPrecededBy, hasIdxUpload, isIdxUploadEvent, isAttUploadEvent]
  | ok aSHA =>
  cases hC : env.indexUploadResult with
  | error t =>
      simp [runExec, generateAttestation, publishAttestation, h1, h2, h3, h4, h5, h6, hE, hA,
        hB, hC, idxPrecededBy, hasIdxUpload, isIdxUploadEvent, isAttUploadEvent, exceptIsOk]
  | ok iSHA =>
  cases h7 : env.subjectUploadResult with
  | error t =>
      simp [runExec, generateAttestation, publishAttestation, subjectPhase,
        publishImmutableActionVersion, h1, h2, h3, h4, h5, h6, hE, hA, hB, hC, h7,
        idxPrecededBy, hasIdxUpload, isIdxUploadEvent, isAttUploadEvent, exceptIsOk]
  | ok publishedDigest =>
      by_cases hd : env.digestImage manifest = publishedDigest <;>
        simp [runExec, generateAttestation, publishAttestation, subjectPhase,
          publishImmutableActionVersion, h1, h2, h3, h4, h5, h6, hE, hA, hB, hC, h7, hd,
          idxPrecededBy, hasIdxUpload, isIdxUploadEvent, isAttUploadEvent, exceptIsOk]

theorem run_events (env : Env) : (run env).events = (runExec env).2.events := by
  unfold run
  rcases h : runExec env with ⟨t | u, st⟩
  · cases t <;> simp [h]
  · simp [h]

theorem run_outputs (env : Env) : (run env).outputs = (runExec env).2.outputs := by
  unfold run
  rcases h : runExec env with ⟨t | u, st⟩
  · cases t <;> simp [h]
  · simp [h]

/-- C4: in every run, a referrer index upload is attempted only after the
attestation manifest upload preceding it in the event trace, and only if that
attestation manifest upload completed successfully. -/
theorem referrer_index_after_attestation (env : Env) :
    idxPrecededBy false (run env).events = true
    ∧ (hasIdxUpload (run env).events = true → exceptIsOk env.attestationUploadResult = true) := by
  rw [run_events]
  exact ⟨(runExec_analysis env).1, (runExec_analysis env).2.1⟩

/-! ### C10: the catch-all swallows non-Error throws -/

/-- An environment in which the attestation branch succeeds (so both attestation
outputs are emitted) and the subject manifest upload then throws a non-`Error`
value. -/
def envNonErr : Env :=
  { envHappy with subjectUploadResult := Except.error Thrown.nonError }

/-- C10 counterexample: a step throws a non-`Error` value, the run resolves
normally with no failure reported, yet outputs HAVE been emitted (the two
attestation outputs set before the throwing step), contradicting the claim
that no outputs are emitted in that case. -/
theorem run_never_rejects_cex :
    envNonErr.subjectUploadResult = Except.error Thrown.nonError
    ∧ (run envNonErr).failed = none
    ∧ (run envNonErr).outputs =
        [("attestation-manifest-sha", "sha256:de0"),
         ("referrer-index-manifest-sha", "sha256:1dc")]
    ∧ (run envNonErr).outputs ≠ [] :=
  ⟨rfl, rfl, rfl, by decide⟩

/-- C10 amended: `run` never rejects — every outcome of the `try` block yields a
normal result; `core.setFailed` is called exactly when the thrown value is an
`Error` instance (with that error's message); when a non-`Error` value is
thrown the run resolves with no failure reported and the `package-manifest-sha`
output is never emitted, though outputs already set before the throwing step
remain. -/
theorem run_never_rejects (env : Env) :
    ((runExec env).1 = Except.error Thrown.nonError →
        (run env).failed = none ∧ ∀ v, ("package-manifest-sha", v) ∉ (run env).outputs)
    ∧ (∀ m, (runExec env).1 = Except.error (Thrown.error m) → (run env).failed = some m)
    ∧ ((runExec env).1 = Except.ok () → (run env).failed = none) := by
  refine ⟨fun h => ⟨?_, fun v hmem => (runExec_analysis env).2.2 v Thrown.nonError h
      (by rwa [run_outputs] at hmem)⟩, fun m h => ?_, fun h => ?_⟩
  all_goals
    unfold run
    rcases hq : runExec env with ⟨res, st⟩
    rw [hq] at h
    simp at h
    subst h
    rfl

/-! ### C5: the attestation branch runs iff the registry is not enterprise -/

/-- C5: given that the run reaches the branch point, the attestation branch
(the signing request, and with it the attestation uploads) executes if and only
if the resolved options indicate a non-enterprise registry; when `isEnterprise`
is true the run's external calls are exactly checkout, staging, archiving and
the subject package manifest upload. -/
theorem attestation_branch_iff_not_enterprise (env : Env)
    (options : PublishActionOptions) (sv : SemVer) (archives : Archives)
    (manifest : OCIImageManifest) (bundle aSHA iSHA publishedDigest : String)
    (h1 : env.resolveOptions = Except.ok options)
    (h2 : parseSemverTagFromRef env.parseSemver options = Except.ok sv)
    (h3 : env.ensureCheckout = Except.ok ())
    (h4 : env.stageResult = Except.ok ())
    (h5 : env.archivesResult = Except.ok archives)
    (h6 : createActionPackageManifest archives.tarFile archives.zipFile
        options.nameWithOwner options.repositoryId options.repositoryOwnerId
        options.sha sv.raw env.now1 = Except.ok manifest)
    (hA : env.attestResult = Except.ok bundle)
    (hB : env.attestationUploadResult = Except.ok aSHA)
    (hC : env.indexUploadResult = Except.ok iSHA)
    (hU : env.subjectUploadResult = Except.ok publishedDigest) :
    ((∃ sn sd, Event.attestCall sn sd ∈ (run env).events) ↔ options.isEnterprise = false)
    ∧ (options.isEnterprise = true →
        (run env).events =
          [Event.checkout options.ref options.sha options.workspaceDir,
           Event.stageFiles, Event.createArchives,
           Event.uploadImageManifest manifest
             (jsMapSet (jsMapSet (jsMapSet []
                 archives.zipFile.sha256 (env.readFileContents archives.zipFile.path))
                 archives.tarFile.sha256 (env.readFileContents archives.tarFile.path))
                 emptyConfigSha "\x7b\x7d")
             (some sv.raw)]) := by
  rw [run_events]
  cases hE : options.isEnterprise <;>
    by_cases hd : env.digestImage manifest = publishedDigest <;>
      simp [runExec, subjectPhase, publishImmutableActionVersion, generateAttestation,
        publishAttestation, h1, h2, h3, h4, h5, h6, hA, hB, hC, hU, hE, hd]

/-- C5 witness: in `envHappy` (non-enterprise) the attestation request is made. -/
theorem attestation_branch_iff_not_enterprise_witness :
    (∃ sn sd, Event.attestCall sn sd ∈ (run envHappy).events) ↔ opts0.isEnterprise = false :=
  (attestation_branch_iff_not_enterprise envHappy opts0 { raw := "1.2.3" } archives0
    manifest0 "BUNDLE" "sha256:de0" "sha256:1dc" "sha256:abc"
    rfl rfl rfl rfl rfl rfl rfl rfl rfl rfl).1

/-! ### C6: an attestation-branch failure fails the whole run -/

/-- C6: with attestation enabled, if any step of the attestation branch throws
an `Error` (signing service, attestation manifest upload, or referrer index
upload), the whole run fails with that error, no success output is emitted, and
the subject package manifest upload (the only tagged image-manifest push) is
never attempted. -/
theorem attestation_failure_aborts (env : Env) (options : PublishActionOptions)
    (sv : SemVer) (archives : Archives) (manifest : OCIImageManifest) (m : String)
    (h1 : env.resolveOptions = Except.ok options)
    (h2 : parseSemverTagFromRef env.parseSemver options = Except.ok sv)
    (h3 : env.ensureCheckout = Except.ok ())
    (h4 : env.stageResult = Except.ok ())
    (h5 : env.archivesResult = Except.ok archives)
    (h6 : createActionPackageManifest archives.tarFile archives.zipFile
        options.nameWithOwner options.repositoryId options.repositoryOwnerId
        options.sha sv.raw env.now1 = Except.ok manifest)
    (hEnt : options.isEnterprise = false)
    (hFail : env.attestResult = Except.error (Thrown.error m)
      ∨ (∃ b, env.attestResult = Except.ok b
          ∧ env.attestationUploadResult = Except.error (Thrown.error m))
      ∨ (∃ b a, env.attestResult = Except.ok b
          ∧ env.attestationUploadResult = Except.ok a
          ∧ env.indexUploadResult = Except.error (Thrown.error m))) :
    (run env).failed = some m
    ∧ (run env).outputs = []
    ∧ ∀ mf fs tg, Event.uploadImageManifest mf fs (some tg) ∉ (run env).events := by
  rcases hFail with hA | ⟨b, hA, hB⟩ | ⟨b, a, hA, hB, hC⟩
  · simp [run, runExec, generateAttestation, publishAttestation, h1, h2, h3, h4, h5, h6,
      hEnt, hA]
  · simp [run, runExec, generateAttestation, publishAttestation, h1, h2, h3, h4, h5, h6,
      hEnt, hA, hB]
  · simp [run, runExec, generateAttestation, publishAttestation, h1, h2, h3, h4, h5, h6,
      hEnt, hA, hB, hC]

/-- C6 witness: a concrete signing-service `Error` fails the run with its
message, emits nothing, and never uploads the subject manifest. -/
theorem attestation_failure_aborts_witness :
    (run { envHappy with attestResult := Except.error (Thrown.error "sigstore down") }).failed
      = some "sigstore down"
    ∧ (run { envHappy with
        attestResult := Except.error (Thrown.error "sigstore down") }).outputs = []
    ∧ Event.uploadImageManifest manifest0
        (jsMapSet (jsMapSet (jsMapSet []
            zip0.sha256 (envHappy.readFileContents zip0.path))
            tar0.sha256 (envHappy.readFileContents tar0.path))
            emptyConfigSha "\x7b\x7d") (some "1.2.3")
        ∉ (run { envHappy with
            attestResult := Except.error (Thrown.error "sigstore down") }).events := by
  have h := attestation_failure_aborts
    { envHappy with attestResult := Except.error (Thrown.error "sigstore down") }
    opts0 { raw := "1.2.3" } archives0 manifest0 "sigstore down"
    rfl rfl rfl rfl rfl rfl rfl (Or.inl rfl)
  exact ⟨h.1, h.2.1, h.2.2 _ _ _⟩

/-! ### C7: the blob file sets -/

/-- C7: the blob set for the subject manifest upload is exactly the zip bytes
under the zip digest, the tar bytes under the tar digest, and `\x7b\x7d` under
the fixed `emptyConfigSha` constant; the blob set for the attestation manifest
upload is exactly `\x7b\x7d` under `emptyConfigSha` and the bundle bytes under
the bundle digest.  The empty-config key is the fixed constant; no hashing
function is applied to produce it. -/
theorem blob_file_sets (env : Env) (options : PublishActionOptions) (tag : String)
    (zipFile tarFile : FileMetadata) (manifest : OCIImageManifest)
    (bundle bundleDigest : String)
    (subjectManifest attestationManifest : OCIImageManifest)
    (referrerIndexManifest : OCIIndexManifest)
    (hzt : zipFile.sha256 ≠ tarFile.sha256)
    (hze : zipFile.sha256 ≠ emptyConfigSha)
    (hte : tarFile.sha256 ≠ emptyConfigSha)
    (hbe : emptyConfigSha ≠ bundleDigest) :
    (publishImmutableActionVersion env options tag zipFile tarFile manifest).2 =
      [Event.uploadImageManifest manifest
        [(zipFile.sha256, env.readFileContents zipFile.path),
         (tarFile.sha256, env.readFileContents tarFile.path),
         (emptyConfigSha, "\x7b\x7d")] (some tag)]
    ∧ ((publishAttestation env options bundle bundleDigest subjectManifest
          attestationManifest referrerIndexManifest).2).head? =
        some (Event.uploadImageManifest attestationManifest
          [(emptyConfigSha, "\x7b\x7d"), (bundleDigest, bundle)] none) := by
  constructor
  · simp [publishImmutableActionVersion, jsMapSet, hzt, hze, hte]
  · cases hB : env.attestationUploadResult <;>
      cases hC : env.indexUploadResult <;>
        simp [publishAttestation, jsMapSet, hbe, hB, hC]

/-- C7 witness: the two blob sets at the concrete fixtures. -/
theorem blob_file_sets_witness :
    (publishImmutableActionVersion envHappy opts0 "1.2.3" zip0 tar0 manifest0).2 =
      [Event.uploadImageManifest manifest0
        [(zip0.sha256, envHappy.readFileContents zip0.path),
         (tar0.sha256, envHappy.readFileContents tar0.path),
         (emptyConfigSha, "\x7b\x7d")] (some "1.2.3")]
    ∧ ((publishAttestation envHappy opts0 "BUNDLE" "sha256:bd0" manifest0
          attManifest0 idxManifest0).2).head? =
        some (Event.uploadImageManifest attManifest0
          [(emptyConfigSha, "\x7b\x7d"), ("sha256:bd0", "BUNDLE")] none) :=
  blob_file_sets envHappy opts0 "1.2.3" zip0 tar0 manifest0 "BUNDLE" "sha256:bd0"
    manifest0 attManifest0 idxManifest0
    (by decide) (by decide) (by decide) (by decide)

/-! ### C8: tag validation happens before any staging or upload -/

/-- C8: when the ref does not start with `refs/tags/`, or the tag (after
stripping one leading `v`) does not parse as a semantic version, the run fails
with a validation error while the event trace is still empty — before checkout,
staging, archiving, manifest construction or any upload — and no outputs are
emitted. -/
theorem invalid_ref_fails_immediately (env : Env) (options : PublishActionOptions)
    (h1 : env.resolveOptions = Except.ok options)
    (hval : jsStartsWith options.ref "refs/tags/" = false
      ∨ (jsStartsWith options.ref "refs/tags/" = true
         ∧ env.parseSemver
             (if jsStartsWith (jsDrop options.ref "refs/tags/".length) "v"
              then jsDrop (jsDrop options.ref "refs/tags/".length) 1
              else jsDrop options.ref "refs/tags/".length) = none)) :
    (run env).events = [] ∧ (run env).outputs = []
    ∧ ∃ m, (run env).failed = some m := by
  rcases hval with h | ⟨hs, hp⟩
  · have hP : parseSemverTagFromRef env.parseSemver options
        = Except.error (Thrown.error
            ("The ref " ++ options.ref ++ " is not a valid tag reference.")) := by
      unfold parseSemverTagFromRef
      simp [h]
    exact ⟨by simp [run, runExec, h1, hP], by simp [run, runExec, h1, hP],
      ⟨"The ref " ++ options.ref ++ " is not a valid tag reference.",
        by simp [run, runExec, h1, hP]⟩⟩
  · have hP : parseSemverTagFromRef env.parseSemver options
        = Except.error (Thrown.error (jsDrop options.ref "refs/tags/".length ++
            " is not a valid semantic version tag, and so cannot be uploaded to the action package.")) := by
      unfold parseSemverTagFromRef
      simp [hs, hp]
    exact ⟨by simp [run, runExec, h1, hP], by simp [run, runExec, h1, hP],
      ⟨jsDrop options.ref "refs/tags/".length ++
          " is not a valid semantic version tag, and so cannot be uploaded to the action package.",
        by simp [run, runExec, h1, hP]⟩⟩

/-- An environment whose resolved ref is a branch, not a tag. -/
def envBadRef : Env :=
  { envHappy with resolveOptions := Except.ok { opts0 with ref := "refs/heads/main" } }

/-- C8 witness: a branch ref fails with an empty trace and no outputs. -/
theorem invalid_ref_fails_immediately_witness :
    (run envBadRef).events = [] ∧ (run envBadRef).outputs = []
    ∧ ∃ m, (run envBadRef).failed = some m :=
  invalid_ref_fails_immediately envBadRef { opts0 with ref := "refs/heads/main" }
    rfl (Or.inl (by decide))

/-! ### C9: the attestation request and bundle digest -/

/-- C9: `generateAttestation` requests the attestation with `subjectName` equal
to `nameWithOwner @ tag` and `subjectDigest` equal to the subject manifest
digest with the leading `sha256:` removed, and returns the bundle bytes
(supplied by the external signing collaborator) together with `bundleDigest`
equal to `sha256:` + the SHA-256 hex of those exact bytes. -/
theorem generateAttestation_request_and_digest (env : Env)
    (options : PublishActionOptions) (tag hex bundleArtifact : String)
    (hb : env.attestResult = Except.ok bundleArtifact) :
    generateAttestation env ("sha256:" ++ hex) tag options =
      (Except.ok (bundleArtifact, "sha256:" ++ env.sha256Hex bundleArtifact),
       [Event.attestCall (options.nameWithOwner ++ "@" ++ tag) hex]) := by
  unfold generateAttestation
  rw [removePrefix_append, hb]

/-- C9 witness: the request and digest at concrete inputs. -/
theorem generateAttestation_request_and_digest_witness :
    generateAttestation envHappy ("sha256:" ++ "abc") "1.2.3" opts0 =
      (Except.ok ("BUNDLE", "sha256:" ++ envHappy.sha256Hex "BUNDLE"),
       [Event.attestCall ("octo/toolkit" ++ "@" ++ "1.2.3") "abc"]) :=
  generateAttestation_request_and_digest envHappy opts0 "1.2.3" "abc" "BUNDLE" rfl
